import Mathlib

/-!
# The SCTP server source element (`src/src/gstsctpserversrc.c`)

A shallow embedding of the element's private state, its property accessors,
its `start` / `stop` / `unlock` / `unlock_stop` / `create` virtual methods, its
instance initialiser and its remote query handler, followed by the properties
proved about them.

Conventions of the embedding:

* the element state is the C structure `GstSCTPServerSrcPrivate`, passed
  explicitly; every method returns its C return value, the next state and the
  list of externally visible calls it made, in program order (`Event`);
* the RPC session (`kms_sctp_server_rpc_*`, `kms_sctp_base_rpc_*`) is not part
  of the translated file; its functions are a parameter (`KmsSCTPServerRPCClass`)
  over an arbitrary session state;
* GLib / GStreamer primitives (`GError`, `GCancellable`, `GValue`, `GstBuffer`)
  are modelled at their documented behaviour;
* debug-log output (`GST_DEBUG`, `GST_WARNING`, `GST_LOG_OBJECT`) is not modelled;
* a dereference of a `NULL` `GError` is undefined behaviour; a method that
  reaches one returns `none`.
-/

namespace Kurento

/-! ## Constants -/

/-- The client connection queue length, `#define SCTP_BACKLOG 1`. -/
def SCTP_BACKLOG : Nat := 1

/-- The buffer capacity, `#define MAX_BUFFER_SIZE (1024 * 16)`. -/
def MAX_BUFFER_SIZE : Nat := 1024 * 16

/-- The largest `guint16`, GLib's `G_MAXUINT16`. -/
def G_MAXUINT16 : Int := 65535

/-! ## GLib primitives -/

/-- A GLib error: the domain (the quark, named by its string), the code and
the message. -/
structure GError where
  domain : String
  code : Int
  message : String
deriving DecidableEq, Repr

/-- The quark of GIO errors. -/
def G_IO_ERROR : String := "g-io-error-quark"

/-- The code `G_IO_ERROR_CANCELLED` of the `GIOErrorEnum`. -/
def G_IO_ERROR_CANCELLED : Int := 19

/-- GLib's `g_error_matches`: false for a `NULL` error, otherwise domain and
code both agree. -/
def g_error_matches (err : Option GError) (domain : String) (code : Int) : Bool :=
  match err with
  | none => false
  | some e => e.domain == domain && e.code == code

/-- A cancellation token; only its cancelled flag is observable. -/
structure GCancellable where
  cancelled : Bool
deriving DecidableEq, Repr

/-- A fresh token is not cancelled. -/
def g_cancellable_new : GCancellable := { cancelled := false }

/-- Sets the cancelled flag. -/
def g_cancellable_cancel (_c : GCancellable) : GCancellable := { cancelled := true }

/-- Clears the cancelled flag. -/
def g_cancellable_reset (_c : GCancellable) : GCancellable := { cancelled := false }

/-- A property value as the property system hands it over: a string (possibly
`NULL`) or a `gint`. -/
inductive GValue where
  | string (s : Option String)
  | int (i : Int)
deriving DecidableEq, Repr

/-- Reads a string value; `NULL` when the value does not hold a string. -/
def g_value_get_string : GValue → Option String
  | .string s => s
  | .int _ => none

/-- Reads an integer value; `0` when the value does not hold an integer. -/
def g_value_get_int : GValue → Int
  | .int i => i
  | .string _ => 0

/-- Stores a string in a string-typed value; another value is left alone. -/
def g_value_set_string (value : GValue) (s : Option String) : GValue :=
  match value with
  | .string _ => .string s
  | .int i => .int i

/-- Stores an integer in an integer-typed value; another value is left alone. -/
def g_value_set_int (value : GValue) (i : Int) : GValue :=
  match value with
  | .int _ => .int i
  | .string s => .string s

/-- The conversion of a `gint` to `guint16` on assignment: reduction modulo
`2^16`. -/
def to_guint16 (i : Int) : Nat := (i % 65536).toNat

/-! ## GStreamer primitives -/

/-- The result of a data-flow call, `GstFlowReturn`. -/
inductive GstFlowReturn where
  | GST_FLOW_CUSTOM_SUCCESS_2
  | GST_FLOW_CUSTOM_SUCCESS_1
  | GST_FLOW_CUSTOM_SUCCESS
  | GST_FLOW_OK
  | GST_FLOW_NOT_LINKED
  | GST_FLOW_FLUSHING
  | GST_FLOW_EOS
  | GST_FLOW_NOT_NEGOTIATED
  | GST_FLOW_ERROR
  | GST_FLOW_NOT_SUPPORTED
  | GST_FLOW_CUSTOM_ERROR
  | GST_FLOW_CUSTOM_ERROR_1
  | GST_FLOW_CUSTOM_ERROR_2
deriving DecidableEq, Repr

/-- The query types, `GstQueryType`. -/
inductive GstQueryType where
  | GST_QUERY_UNKNOWN
  | GST_QUERY_POSITION
  | GST_QUERY_DURATION
  | GST_QUERY_LATENCY
  | GST_QUERY_JITTER
  | GST_QUERY_RATE
  | GST_QUERY_SEEKING
  | GST_QUERY_SEGMENT
  | GST_QUERY_CONVERT
  | GST_QUERY_FORMATS
  | GST_QUERY_BUFFERING
  | GST_QUERY_CUSTOM
  | GST_QUERY_URI
  | GST_QUERY_ALLOCATION
  | GST_QUERY_SCHEDULING
  | GST_QUERY_ACCEPT_CAPS
  | GST_QUERY_CAPS
  | GST_QUERY_DRAIN
  | GST_QUERY_CONTEXT
deriving DecidableEq, Repr

/-- A query: its type and its fields (the filter on the way out, the answer on
the way back). -/
structure GstQuery where
  type : GstQueryType
  fields : List (String × String)
deriving DecidableEq, Repr

/-- The accessor `GST_QUERY_TYPE`. -/
def GST_QUERY_TYPE (query : GstQuery) : GstQueryType := query.type

/-- A buffer backed by one memory block: the block (its length is the maximum
size), the offset of the visible region in it and the visible size. Bytes are
natural numbers below 256. -/
structure GstBuffer where
  data : List Nat
  offset : Nat
  size : Nat
deriving DecidableEq, Repr

/-- Allocates a buffer of `size` bytes, all visible. The contents of fresh
memory are unspecified; the model takes zeros. -/
def gst_buffer_new_and_alloc (size : Nat) : GstBuffer :=
  { data := List.replicate size 0, offset := 0, size := size }

/-- The maximum size of the buffer: the length of its memory block. -/
def gst_buffer_maxsize (b : GstBuffer) : Nat := b.data.length

/-- The visible bytes of the buffer. -/
def gst_buffer_bytes (b : GstBuffer) : List Nat := (b.data.drop b.offset).take b.size

/-- The mapped region handed to a writer that stores `written` at its start:
the bytes replace the head of the region, and nothing is stored beyond the end
of the region. -/
def mem_store (region : List Nat) (written : List Nat) : List Nat :=
  (written ++ region.drop written.length).take region.length

/-- Maps the buffer read-write, lets the writer store `written` at the start of
the visible region, and unmaps it. -/
def gst_buffer_map_store_unmap (b : GstBuffer) (written : List Nat) : GstBuffer :=
  { b with data := b.data.take b.offset ++ mem_store (b.data.drop b.offset) written }

/-- GStreamer's `gst_buffer_resize (buffer, offset, size)`: moves the start of
the visible region by `offset` and sets its size (`-1`: up to the current end).
A request outside the memory block fails the precondition checks and leaves the
buffer unchanged. -/
def gst_buffer_resize (b : GstBuffer) (offset : Int) (size : Int) : GstBuffer :=
  if size < -1 then b
  else if ¬ ((offset < 0 ∧ (b.offset : Int) ≥ -offset) ∨ (offset ≥ 0 ∧ (b.size : Int) ≥ offset)) then b
  else
    let size1 : Int := if size = -1 then (b.size : Int) - offset else size
    if (gst_buffer_maxsize b : Int) ≥ (b.offset : Int) + offset + size1 then
      { b with offset := ((b.offset : Int) + offset).toNat, size := size1.toNat }
    else b

/-- The error domains of `GST_ELEMENT_ERROR`. -/
inductive GstErrorDomain where
  | CORE
  | LIBRARY
  | RESOURCE
  | STREAM
deriving DecidableEq, Repr

/-- The codes of the resource domain used by the element. -/
inductive GstResourceError where
  | OPEN_READ
  | READ
deriving DecidableEq, Repr

/-! ## The RPC session boundary -/

/-- The construction properties the element passes to `kms_sctp_server_rpc_new`. -/
inductive KmsSCTPBaseRPCProp where
  | KMS_SCTP_BASE_RPC_RULES
  | KMS_SCTP_BASE_RPC_BUFFER_SIZE
deriving DecidableEq, Repr

/-- The values of the construction properties: a marshalling rule set or a
number. -/
inductive KmsSCTPBaseRPCValue where
  | KURENTO_MARSHALL_BER
  | uint (n : Nat)
deriving DecidableEq, Repr

/-- The query functions that can be registered with a session; the element has
one. -/
inductive KmsQueryFunction where
  | gst_sctp_server_src_remote_query
deriving DecidableEq, Repr

/-- What `kms_sctp_server_rpc_start` hands back: the session afterwards, the
`gboolean` result and the `GError` out-parameter. -/
structure RPCStartResult (σ : Type) where
  rpc : σ
  ok : Bool
  err : Option GError

/-- What `kms_sctp_server_rpc_get_buffer` hands back: the session afterwards,
the `gssize` result, the bytes it stored at the start of the caller's region
and the `GError` out-parameter. -/
structure RPCGetBufferResult (σ : Type) where
  rpc : σ
  rret : Int
  written : List Nat
  err : Option GError

/-- The session functions the element calls, over a session state `σ`. A
session keeps the reference to the cancellable it was started with, so every
blocking function is given the current state of the element's token; the
session reads the token and does not change it. -/
structure KmsSCTPServerRPCClass (σ : Type) where
  kms_sctp_server_rpc_new : List (KmsSCTPBaseRPCProp × KmsSCTPBaseRPCValue) → σ
  kms_sctp_base_rpc_set_query_function : σ → KmsQueryFunction → σ
  kms_sctp_server_rpc_start : σ → Option String → Int → GCancellable → RPCStartResult σ
  kms_sctp_server_rpc_stop : σ → GCancellable → σ
  kms_sctp_server_rpc_get_buffer : σ → GCancellable → Nat → RPCGetBufferResult σ

/-- The externally visible calls of the element, in the order the code makes
them. -/
inductive Event where
  | g_cancellable_cancel
  | g_cancellable_reset
  | kms_sctp_server_rpc_new (props : List (KmsSCTPBaseRPCProp × KmsSCTPBaseRPCValue))
  | kms_sctp_base_rpc_set_query_function (f : KmsQueryFunction)
  | kms_sctp_server_rpc_start (host : Option String) (port : Int) (cancellable : GCancellable)
  | kms_sctp_server_rpc_stop
  | kms_sctp_server_rpc_get_buffer (capacity : Nat) (maxlen : Nat)
  | gst_element_error (domain : GstErrorDomain) (code : GstResourceError) (text : Option String) (debug : String)
  | gst_pad_peer_query (query : GstQuery)
deriving DecidableEq, Repr

/-! ## Element state -/

/-- The private structure `struct _GstSCTPServerSrcPrivate`. The two socket
pointers are never assigned by the element; the stream counts are `guint16`. -/
structure GstSCTPServerSrcPrivate (σ : Type) where
  server_socket : Option Nat
  client_socket : Option Nat
  cancellable : GCancellable
  current_port : Int
  server_port : Int
  host : Option String
  num_ostreams : Nat
  max_istreams : Nat
  serverrpc : σ
deriving DecidableEq, Repr

/-- The property identifiers of the anonymous `enum`. -/
def PROP_0 : Nat := 0

/-- The identifier of `bind-address`. -/
def PROP_HOST : Nat := 1

/-- The identifier of `port`. -/
def PROP_PORT : Nat := 2

/-- The identifier of `current-port`. -/
def PROP_CURRENT_PORT : Nat := 3

/-- The identifier of `num-ostreams`. -/
def PROP_NUM_OSTREAMS : Nat := 4

/-- The identifier of `max-instreams`. -/
def PROP_MAX_INSTREAMS : Nat := 5

/-- The outcome of a virtual method: the C return value, the element state
afterwards and the calls made. -/
structure Outcome (σ : Type) (α : Type) where
  ret : α
  self : GstSCTPServerSrcPrivate σ
  events : List Event

/-! ## Property accessors -/

/-- The setter `gst_sctp_server_src_set_property`. -/
def gst_sctp_server_src_set_property {σ : Type} (self : GstSCTPServerSrcPrivate σ)
    (prop_id : Nat) (value : GValue) : GstSCTPServerSrcPrivate σ :=
  if prop_id = PROP_HOST then
    match g_value_get_string value with
    | none => self
    | some s => { self with host := some s }
  else if prop_id = PROP_PORT then
    { self with server_port := g_value_get_int value }
  else if prop_id = PROP_NUM_OSTREAMS then
    { self with num_ostreams := to_guint16 (g_value_get_int value) }
  else if prop_id = PROP_MAX_INSTREAMS then
    { self with max_istreams := to_guint16 (g_value_get_int value) }
  else self

/-- The getter `gst_sctp_server_src_get_property`: the value after the call. -/
def gst_sctp_server_src_get_property {σ : Type} (self : GstSCTPServerSrcPrivate σ)
    (prop_id : Nat) (value : GValue) : GValue :=
  if prop_id = PROP_HOST then g_value_set_string value self.host
  else if prop_id = PROP_PORT then g_value_set_int value self.server_port
  else if prop_id = PROP_CURRENT_PORT then g_value_set_int value self.current_port
  else if prop_id = PROP_NUM_OSTREAMS then g_value_set_int value (self.num_ostreams : Int)
  else if prop_id = PROP_MAX_INSTREAMS then g_value_set_int value (self.max_istreams : Int)
  else value

/-! ## Virtual methods -/

/-- The method `gst_sctp_server_src_stop`: cancels the token, then stops the
session, and returns `TRUE`. -/
def gst_sctp_server_src_stop {σ : Type} (klass : KmsSCTPServerRPCClass σ)
    (self : GstSCTPServerSrcPrivate σ) : Outcome σ Bool :=
  let cancellable := g_cancellable_cancel self.cancellable
  let serverrpc := klass.kms_sctp_server_rpc_stop self.serverrpc cancellable
  { ret := true
    self := { self with cancellable := cancellable, serverrpc := serverrpc }
    events := [Event.g_cancellable_cancel, Event.kms_sctp_server_rpc_stop] }

/-- The method `gst_sctp_server_src_start`: starts the session with the stored
host, port and token; on failure posts the element error built from the
session's error message and returns `FALSE`. -/
def gst_sctp_server_src_start {σ : Type} (klass : KmsSCTPServerRPCClass σ)
    (self : GstSCTPServerSrcPrivate σ) : Option (Outcome σ Bool) :=
  let r := klass.kms_sctp_server_rpc_start self.serverrpc self.host self.server_port
    self.cancellable
  let call := Event.kms_sctp_server_rpc_start self.host self.server_port self.cancellable
  if r.ok then
    some { ret := true, self := { self with serverrpc := r.rpc }, events := [call] }
  else
    match r.err with
    | none => none
    | some err =>
      some { ret := false
             self := { self with serverrpc := r.rpc }
             events := [call, Event.gst_element_error GstErrorDomain.RESOURCE
               GstResourceError.OPEN_READ none ("Error: " ++ err.message)] }

/-- The method `gst_sctp_server_src_unlock`: cancels the token and returns
`TRUE`. -/
def gst_sctp_server_src_unlock {σ : Type} (self : GstSCTPServerSrcPrivate σ) :
    Outcome σ Bool :=
  { ret := true
    self := { self with cancellable := g_cancellable_cancel self.cancellable }
    events := [Event.g_cancellable_cancel] }

/-- The method `gst_sctp_server_src_unlock_stop`: resets the token and returns
`TRUE`. -/
def gst_sctp_server_src_unlock_stop {σ : Type} (self : GstSCTPServerSrcPrivate σ) :
    Outcome σ Bool :=
  { ret := true
    self := { self with cancellable := g_cancellable_reset self.cancellable }
    events := [Event.g_cancellable_reset] }

/-- The C return value of `create` together with the out-parameter `*outbuf`. -/
structure CreateReturn where
  ret : GstFlowReturn
  outbuf : Option GstBuffer
deriving DecidableEq, Repr

/-- The method `gst_sctp_server_src_create`: allocates a buffer of
`MAX_BUFFER_SIZE` bytes, lets the session fill its mapped region with at most
`MAX_BUFFER_SIZE` bytes and dispatches on the session's result. -/
def gst_sctp_server_src_create {σ : Type} (klass : KmsSCTPServerRPCClass σ)
    (self : GstSCTPServerSrcPrivate σ) : Option (Outcome σ CreateReturn) :=
  let outbuf := gst_buffer_new_and_alloc MAX_BUFFER_SIZE
  let r := klass.kms_sctp_server_rpc_get_buffer self.serverrpc self.cancellable MAX_BUFFER_SIZE
  let call := Event.kms_sctp_server_rpc_get_buffer (gst_buffer_maxsize outbuf) MAX_BUFFER_SIZE
  let outbuf := gst_buffer_map_store_unmap outbuf r.written
  let self1 := { self with serverrpc := r.rpc }
  if r.rret = 0 then
    some { ret := { ret := GstFlowReturn.GST_FLOW_EOS, outbuf := none }
           self := self1, events := [call] }
  else if r.rret < 0 then
    if g_error_matches r.err G_IO_ERROR G_IO_ERROR_CANCELLED then
      some { ret := { ret := GstFlowReturn.GST_FLOW_FLUSHING, outbuf := none }
             self := self1, events := [call] }
    else
      match r.err with
      | none => none
      | some err =>
        some { ret := { ret := GstFlowReturn.GST_FLOW_ERROR, outbuf := none }
               self := self1
               events := [call, Event.gst_element_error GstErrorDomain.RESOURCE
                 GstResourceError.READ none ("Failed to read from socket: " ++ err.message)] }
  else
    some { ret := { ret := GstFlowReturn.GST_FLOW_OK
                    outbuf := some (gst_buffer_resize outbuf 0 r.rret) }
           self := self1, events := [call] }

/-! ## Remote queries and initialisation -/

/-- The handler `gst_sctp_server_src_remote_query`: a CAPS query goes to the
peer of the source pad, which answers in place (`peer` is that answer; its
`gboolean` result is dropped by the code); any other query is left alone. The
result is the query afterwards and the calls made. -/
def gst_sctp_server_src_remote_query (peer : GstQuery → GstQuery) (query : GstQuery) :
    GstQuery × List Event :=
  match GST_QUERY_TYPE query with
  | GstQueryType.GST_QUERY_CAPS => (peer query, [Event.gst_pad_peer_query query])
  | _ => (query, [])

/-- The instance initialiser `gst_sctp_server_src_init` on the zero-filled
private structure: a fresh token, a session built with the BER rules and a
buffer size of `MAX_BUFFER_SIZE`, and the remote query handler registered. -/
def gst_sctp_server_src_init {σ : Type} (klass : KmsSCTPServerRPCClass σ) :
    GstSCTPServerSrcPrivate σ × List Event :=
  let props := [(KmsSCTPBaseRPCProp.KMS_SCTP_BASE_RPC_RULES, KmsSCTPBaseRPCValue.KURENTO_MARSHALL_BER),
    (KmsSCTPBaseRPCProp.KMS_SCTP_BASE_RPC_BUFFER_SIZE, KmsSCTPBaseRPCValue.uint MAX_BUFFER_SIZE)]
  let serverrpc := klass.kms_sctp_server_rpc_new props
  let serverrpc := klass.kms_sctp_base_rpc_set_query_function serverrpc
    KmsQueryFunction.gst_sctp_server_src_remote_query
  ({ server_socket := none, client_socket := none
     cancellable := g_cancellable_new
     current_port := 0, server_port := 0, host := none
     num_ostreams := 0, max_istreams := 0
     serverrpc := serverrpc },
   [Event.kms_sctp_server_rpc_new props,
    Event.kms_sctp_base_rpc_set_query_function KmsQueryFunction.gst_sctp_server_src_remote_query])

/-- Object construction: the initialiser, then every `G_PARAM_CONSTRUCT`
property set to its default through the setter, in installation order. The
defaults of host and port come from a header outside the translated file and
are parameters. -/
def gst_sctp_server_src_construct {σ : Type} (klass : KmsSCTPServerRPCClass σ)
    (SCTP_DEFAULT_HOST : String) (SCTP_DEFAULT_PORT : Int) : GstSCTPServerSrcPrivate σ :=
  let self := (gst_sctp_server_src_init klass).1
  let self := gst_sctp_server_src_set_property self PROP_HOST (GValue.string (some SCTP_DEFAULT_HOST))
  let self := gst_sctp_server_src_set_property self PROP_PORT (GValue.int SCTP_DEFAULT_PORT)
  let self := gst_sctp_server_src_set_property self PROP_NUM_OSTREAMS (GValue.int 1)
  gst_sctp_server_src_set_property self PROP_MAX_INSTREAMS (GValue.int 1)

/-! ## Call sequences -/

/-- The virtual methods the framework may call on a started or stopped
element. -/
inductive Call where
  | start
  | stop
  | unlock
  | unlock_stop
  | create
deriving DecidableEq, Repr

/-- One framework call: the state afterwards and the calls made. -/
def Call.apply {σ : Type} (klass : KmsSCTPServerRPCClass σ) (c : Call)
    (self : GstSCTPServerSrcPrivate σ) : Option (GstSCTPServerSrcPrivate σ × List Event) :=
  match c with
  | Call.start => (gst_sctp_server_src_start klass self).map fun o => (o.self, o.events)
  | Call.stop => some ((gst_sctp_server_src_stop klass self).self, (gst_sctp_server_src_stop klass self).events)
  | Call.unlock => some ((gst_sctp_server_src_unlock self).self, (gst_sctp_server_src_unlock self).events)
  | Call.unlock_stop =>
    some ((gst_sctp_server_src_unlock_stop self).self, (gst_sctp_server_src_unlock_stop self).events)
  | Call.create => (gst_sctp_server_src_create klass self).map fun o => (o.self, o.events)

/-- A sequence of framework calls, left to right, with the calls made
accumulated in order. -/
def run_calls {σ : Type} (klass : KmsSCTPServerRPCClass σ) :
    List Call → GstSCTPServerSrcPrivate σ → Option (GstSCTPServerSrcPrivate σ × List Event)
  | [], self => some (self, [])
  | c :: cs, self =>
    match Call.apply klass c self with
    | none => none
    | some (self1, ev1) =>
      match run_calls klass cs self1 with
      | none => none
      | some (self2, ev2) => some (self2, ev1 ++ ev2)

/-- The session functions follow the `GError` convention: a failed start and a
negative read both set the error. -/
def GErrorConvention {σ : Type} (klass : KmsSCTPServerRPCClass σ) : Prop :=
  (∀ rpc host port tok, (klass.kms_sctp_server_rpc_start rpc host port tok).ok = false →
    (klass.kms_sctp_server_rpc_start rpc host port tok).err ≠ none) ∧
  (∀ rpc tok maxlen, (klass.kms_sctp_server_rpc_get_buffer rpc tok maxlen).rret < 0 →
    (klass.kms_sctp_server_rpc_get_buffer rpc tok maxlen).err ≠ none)

/-- Whether a call is a call of the session's `start`. -/
def Event.is_rpc_start : Event → Bool
  | Event.kms_sctp_server_rpc_start _ _ _ => true
  | _ => false

/-- Whether a call is a query sent to the peer of the source pad. -/
def Event.is_peer_query : Event → Bool
  | Event.gst_pad_peer_query _ => true
  | _ => false

/-- The code behind a registered query function pointer. -/
def kms_query_function_invoke (f : KmsQueryFunction) (peer : GstQuery → GstQuery)
    (query : GstQuery) : GstQuery × List Event :=
  match f with
  | KmsQueryFunction.gst_sctp_server_src_remote_query =>
    gst_sctp_server_src_remote_query peer query

/-! ## A sample session -/

/-- Modelled from the spec: the state of an RPC session (`kmssctpserverrpc.c`
is outside the translated file) as far as the element can observe it: the
configured maximum buffer size, the registered query function, the bound port
(0 until bound), whether a peer is connected, and the DATA payloads waiting in
the data handoff in wire order. -/
structure SampleSession where
  buffer_size : Nat
  query_function : Option KmsQueryFunction
  bound_port : Int
  connected : Bool
  handoff : List (List Nat)
deriving DecidableEq, Repr

/-- The error a cancelled blocking call reports. -/
def sample_cancelled : GError :=
  { domain := G_IO_ERROR, code := G_IO_ERROR_CANCELLED, message := "Operation was cancelled" }

/-- The error a bind to an unusable address reports (`G_IO_ERROR_INVALID_ARGUMENT`). -/
def sample_invalid_address : GError :=
  { domain := G_IO_ERROR, code := 13, message := "Invalid address" }

/-- The error a read on a session without a peer reports (`G_IO_ERROR_CLOSED`). -/
def sample_closed : GError :=
  { domain := G_IO_ERROR, code := 18, message := "Session closed" }

/-- The buffer size among the construction properties, 0 when absent. -/
def sample_buffer_size : List (KmsSCTPBaseRPCProp × KmsSCTPBaseRPCValue) → Nat
  | [] => 0
  | (KmsSCTPBaseRPCProp.KMS_SCTP_BASE_RPC_BUFFER_SIZE, KmsSCTPBaseRPCValue.uint n) :: _ => n
  | _ :: rest => sample_buffer_size rest

/-- Modelled from the spec: a session (`kmssctpserverrpc.c` is outside the
translated file) whose peer will send the payloads `wire`. `start` fails with
`Cancelled` on a signalled token and with an address error on a missing or
empty host, otherwise binds (port 0 gets the ephemeral port 49152) and accepts
the peer; `stop` releases the sockets; `get_buffer` fails with `Cancelled` on a
signalled token, returns 0 at end of stream and otherwise hands over one
payload, cut to the requested maximum. -/
def sample_klass (wire : List (List Nat)) : KmsSCTPServerRPCClass SampleSession where
  kms_sctp_server_rpc_new := fun props =>
    { buffer_size := sample_buffer_size props, query_function := none, bound_port := 0
      connected := false, handoff := wire }
  kms_sctp_base_rpc_set_query_function := fun rpc f => { rpc with query_function := some f }
  kms_sctp_server_rpc_start := fun rpc host port tok =>
    if tok.cancelled then { rpc := rpc, ok := false, err := some sample_cancelled }
    else
      match host with
      | none => { rpc := rpc, ok := false, err := some sample_invalid_address }
      | some h =>
        if h = "" then { rpc := rpc, ok := false, err := some sample_invalid_address }
        else
          { rpc := { rpc with bound_port := if port = 0 then 49152 else port, connected := true }
            ok := true, err := none }
  kms_sctp_server_rpc_stop := fun rpc _tok => { rpc with bound_port := 0, connected := false }
  kms_sctp_server_rpc_get_buffer := fun rpc tok maxlen =>
    if tok.cancelled then { rpc := rpc, rret := -1, written := [], err := some sample_cancelled }
    else if rpc.connected = false then
      { rpc := rpc, rret := -1, written := [], err := some sample_closed }
    else
      match rpc.handoff with
      | [] => { rpc := rpc, rret := 0, written := [], err := none }
      | p :: rest =>
        { rpc := { rpc with handoff := rest }, rret := ((p.take maxlen).length : Int)
          written := p.take maxlen, err := none }

/-- The bytes of the text `hello`. -/
def sample_hello : List Nat := [104, 101, 108, 108, 111]

/-- A constructed element over the sample session, bound to `localhost` with
the port property 0. -/
def sample_element (wire : List (List Nat)) : GstSCTPServerSrcPrivate SampleSession :=
  gst_sctp_server_src_construct (sample_klass wire) "localhost" 0

/-- The sample element after a call of `start`. -/
def sample_started (wire : List (List Nat)) : GstSCTPServerSrcPrivate SampleSession :=
  match gst_sctp_server_src_start (sample_klass wire) (sample_element wire) with
  | some o => o.self
  | none => sample_element wire

/-- The host is a non-empty string. -/
def host_nonempty (host : Option String) : Bool :=
  match host with
  | none => false
  | some h => h != ""

/-! ## Properties: the property accessors -/

/-- The conversion to `guint16` is the identity on 0..65535. -/
theorem to_guint16_of_range (v : Int) (h0 : 0 ≤ v) (h1 : v ≤ G_MAXUINT16) :
    ((to_guint16 v : Nat) : Int) = v := by
  unfold G_MAXUINT16 at h1
  unfold to_guint16
  have h2 : v % 65536 = v := Int.emod_eq_of_lt h0 (by omega)
  rw [h2]
  exact Int.toNat_of_nonneg h0

/-- Claim C7. For each of `port`, `num-ostreams` and `max-instreams` and every
integer `v` with `0 ≤ v ≤ 65535`, the getter after the setter returns exactly
`v`, and the other integer properties (`current-port` included) and the host
read back as before the setter. -/
theorem set_get_property_roundtrip {σ : Type} (self : GstSCTPServerSrcPrivate σ) (v : Int)
    (h0 : 0 ≤ v) (h1 : v ≤ G_MAXUINT16) (prop_id : Nat)
    (hp : prop_id = PROP_PORT ∨ prop_id = PROP_NUM_OSTREAMS ∨ prop_id = PROP_MAX_INSTREAMS)
    (old : Int) (olds : Option String) :
    gst_sctp_server_src_get_property
        (gst_sctp_server_src_set_property self prop_id (GValue.int v)) prop_id (GValue.int old)
      = GValue.int v ∧
    (∀ other, other ≠ prop_id →
      gst_sctp_server_src_get_property
          (gst_sctp_server_src_set_property self prop_id (GValue.int v)) other (GValue.int old)
        = gst_sctp_server_src_get_property self other (GValue.int old)) ∧
    gst_sctp_server_src_get_property
        (gst_sctp_server_src_set_property self prop_id (GValue.int v)) PROP_HOST (GValue.string olds)
      = gst_sctp_server_src_get_property self PROP_HOST (GValue.string olds) := by
  have hv := to_guint16_of_range v h0 h1
  rcases hp with hp | hp | hp
  · subst hp
    refine ⟨by simp [gst_sctp_server_src_get_property, gst_sctp_server_src_set_property,
      g_value_get_int, g_value_set_int, PROP_HOST, PROP_PORT], ?_, ?_⟩
    · intro other ho
      simp only [gst_sctp_server_src_get_property, gst_sctp_server_src_set_property,
        PROP_HOST, PROP_PORT, PROP_CURRENT_PORT, PROP_NUM_OSTREAMS, PROP_MAX_INSTREAMS] at ho ⊢
      simp [ho]
    · simp [gst_sctp_server_src_get_property, gst_sctp_server_src_set_property, PROP_HOST, PROP_PORT]
  · subst hp
    refine ⟨by simp [gst_sctp_server_src_get_property, gst_sctp_server_src_set_property,
      g_value_get_int, g_value_set_int, PROP_HOST, PROP_PORT, PROP_CURRENT_PORT,
      PROP_NUM_OSTREAMS, hv], ?_, ?_⟩
    · intro other ho
      simp only [gst_sctp_server_src_get_property, gst_sctp_server_src_set_property,
        PROP_HOST, PROP_PORT, PROP_CURRENT_PORT, PROP_NUM_OSTREAMS, PROP_MAX_INSTREAMS] at ho ⊢
      simp [ho]
    · simp [gst_sctp_server_src_get_property, gst_sctp_server_src_set_property, PROP_HOST,
        PROP_PORT, PROP_NUM_OSTREAMS]
  · subst hp
    refine ⟨by simp [gst_sctp_server_src_get_property, gst_sctp_server_src_set_property,
      g_value_get_int, g_value_set_int, PROP_HOST, PROP_PORT, PROP_CURRENT_PORT,
      PROP_NUM_OSTREAMS, PROP_MAX_INSTREAMS, hv], ?_, ?_⟩
    · intro other ho
      simp only [gst_sctp_server_src_get_property, gst_sctp_server_src_set_property,
        PROP_HOST, PROP_PORT, PROP_CURRENT_PORT, PROP_NUM_OSTREAMS, PROP_MAX_INSTREAMS] at ho ⊢
      simp [ho]
    · simp [gst_sctp_server_src_get_property, gst_sctp_server_src_set_property, PROP_HOST,
        PROP_PORT, PROP_NUM_OSTREAMS, PROP_MAX_INSTREAMS]

/-- The roundtrip of claim C7 at the largest stream count, 65535, on the sample
element. -/
theorem set_get_property_roundtrip_witness :
    gst_sctp_server_src_get_property
        (gst_sctp_server_src_set_property (sample_element []) PROP_NUM_OSTREAMS (GValue.int 65535))
        PROP_NUM_OSTREAMS (GValue.int 0)
      = GValue.int 65535 ∧
    (∀ other, other ≠ PROP_NUM_OSTREAMS →
      gst_sctp_server_src_get_property
          (gst_sctp_server_src_set_property (sample_element []) PROP_NUM_OSTREAMS (GValue.int 65535))
          other (GValue.int 0)
        = gst_sctp_server_src_get_property (sample_element []) other (GValue.int 0)) ∧
    gst_sctp_server_src_get_property
        (gst_sctp_server_src_set_property (sample_element []) PROP_NUM_OSTREAMS (GValue.int 65535))
        PROP_HOST (GValue.string none)
      = gst_sctp_server_src_get_property (sample_element []) PROP_HOST (GValue.string none) :=
  set_get_property_roundtrip (sample_element []) 65535 (by decide) (by decide)
    PROP_NUM_OSTREAMS (Or.inr (Or.inl rfl)) 0 none

/-- Claim C4, as stated, fails: on the sample element, whose host is the
non-empty `localhost`, setting `bind-address` to the empty string is not
rejected and leaves an empty host. -/
theorem set_property_host_accepts_empty :
    host_nonempty (sample_element []).host = true ∧
    (gst_sctp_server_src_set_property (sample_element []) PROP_HOST
      (GValue.string (some ""))).host = some "" ∧
    host_nonempty (gst_sctp_server_src_set_property (sample_element []) PROP_HOST
      (GValue.string (some ""))).host = false := by
  refine ⟨?_, ?_, ?_⟩ <;>
    simp [sample_element, gst_sctp_server_src_construct, gst_sctp_server_src_set_property,
      gst_sctp_server_src_init, g_value_get_string, g_value_get_int, host_nonempty,
      PROP_HOST, PROP_PORT, PROP_NUM_OSTREAMS, PROP_MAX_INSTREAMS]

/-- Claim C4, amended. From a state whose host is a non-empty string, setting
`bind-address` to a `NULL` value is rejected and keeps the whole state; a
non-`NULL` value is stored as it is; so the host stays non-`NULL`, and it stays
non-empty for every value other than the empty string. -/
theorem set_property_host_null_rejected {σ : Type} (self : GstSCTPServerSrcPrivate σ)
    (value : GValue) (hself : host_nonempty self.host = true) :
    (g_value_get_string value = none →
      gst_sctp_server_src_set_property self PROP_HOST value = self) ∧
    (∀ h, g_value_get_string value = some h →
      gst_sctp_server_src_set_property self PROP_HOST value = { self with host := some h }) ∧
    (gst_sctp_server_src_set_property self PROP_HOST value).host ≠ none ∧
    (g_value_get_string value ≠ some "" →
      host_nonempty (gst_sctp_server_src_set_property self PROP_HOST value).host = true) := by
  cases hv : g_value_get_string value with
  | none =>
    have hne : self.host ≠ none := by
      intro h0
      rw [h0] at hself
      simp [host_nonempty] at hself
    simp [gst_sctp_server_src_set_property, hv, hself, hne]
  | some h =>
    simp [gst_sctp_server_src_set_property, hv, host_nonempty]

/-- The amended claim C4 on the sample element with a `NULL` value. -/
theorem set_property_host_null_rejected_witness :
    host_nonempty (sample_element []).host = true ∧
    ((g_value_get_string (GValue.string none) = none →
      gst_sctp_server_src_set_property (sample_element []) PROP_HOST (GValue.string none)
        = sample_element []) ∧
    (∀ h, g_value_get_string (GValue.string none) = some h →
      gst_sctp_server_src_set_property (sample_element []) PROP_HOST (GValue.string none)
        = { sample_element [] with host := some h }) ∧
    (gst_sctp_server_src_set_property (sample_element []) PROP_HOST (GValue.string none)).host
      ≠ none ∧
    (g_value_get_string (GValue.string none) ≠ some "" →
      host_nonempty (gst_sctp_server_src_set_property (sample_element []) PROP_HOST
        (GValue.string none)).host = true)) :=
  ⟨by decide, set_property_host_null_rejected (sample_element []) (GValue.string none) (by decide)⟩

/-! ## Properties: the cancel token -/

/-- Claim C5. From a state whose token is clear, `unlock` returns `TRUE`, only
cancels the token (it makes no session call, and the state afterwards is the
state before with the token signalled), and `unlock_stop` after it returns
`TRUE` and restores the state before `unlock`, token clear. -/
theorem unlock_then_unlock_stop {σ : Type} (self : GstSCTPServerSrcPrivate σ)
    (hclear : self.cancellable.cancelled = false) :
    (gst_sctp_server_src_unlock self).ret = true ∧
    (gst_sctp_server_src_unlock self).self = { self with cancellable := { cancelled := true } } ∧
    (gst_sctp_server_src_unlock self).events = [Event.g_cancellable_cancel] ∧
    (gst_sctp_server_src_unlock_stop (gst_sctp_server_src_unlock self).self).ret = true ∧
    (gst_sctp_server_src_unlock_stop (gst_sctp_server_src_unlock self).self).self = self ∧
    (gst_sctp_server_src_unlock_stop
      (gst_sctp_server_src_unlock self).self).self.cancellable.cancelled = false := by
  obtain ⟨ss, cs, ⟨c⟩, cp, sp, h, no, mi, rpc⟩ := self
  simp only at hclear
  subst hclear
  simp [gst_sctp_server_src_unlock, gst_sctp_server_src_unlock_stop, g_cancellable_cancel,
    g_cancellable_reset]

/-- The claim C5 on the sample element, whose token is clear after construction. -/
theorem unlock_then_unlock_stop_witness :
    (sample_element []).cancellable.cancelled = false ∧
    ((gst_sctp_server_src_unlock (sample_element [])).ret = true ∧
    (gst_sctp_server_src_unlock (sample_element [])).self
      = { sample_element [] with cancellable := { cancelled := true } } ∧
    (gst_sctp_server_src_unlock (sample_element [])).events = [Event.g_cancellable_cancel] ∧
    (gst_sctp_server_src_unlock_stop (gst_sctp_server_src_unlock (sample_element [])).self).ret
      = true ∧
    (gst_sctp_server_src_unlock_stop (gst_sctp_server_src_unlock (sample_element [])).self).self
      = sample_element [] ∧
    (gst_sctp_server_src_unlock_stop
      (gst_sctp_server_src_unlock (sample_element [])).self).self.cancellable.cancelled = false) :=
  ⟨by decide, unlock_then_unlock_stop (sample_element []) (by decide)⟩

/-! ## Properties: `create` -/

/-- A store never changes the length of the mapped region. -/
theorem mem_store_length (region written : List Nat) :
    (mem_store region written).length = region.length := by
  simp only [mem_store, List.length_take, List.length_append, List.length_drop]
  omega

/-- The first `n` bytes of the region after a store of at least `n` bytes are
the first `n` bytes stored. -/
theorem mem_store_take (region written : List Nat) (n : Nat) (hn : n ≤ region.length)
    (hw : n ≤ written.length) : (mem_store region written).take n = written.take n := by
  unfold mem_store
  rw [List.take_take, Nat.min_eq_left hn, List.take_append_of_le_length hw]

/-- The buffer `create` holds after the session has stored `written` in the
freshly allocated one: the whole block is the mapped region. -/
theorem filled_buffer_eq (size : Nat) (written : List Nat) :
    gst_buffer_map_store_unmap (gst_buffer_new_and_alloc size) written
      = { data := mem_store (List.replicate size 0) written, offset := 0, size := size } := by
  simp [gst_buffer_map_store_unmap, gst_buffer_new_and_alloc]

/-- A resize of a buffer at offset 0 to a positive size within the block sets
the size and nothing else. -/
theorem resize_within (b : GstBuffer) (n : Int) (hoff : b.offset = 0) (h0 : 0 < n)
    (h1 : n ≤ (gst_buffer_maxsize b : Int)) :
    gst_buffer_resize b 0 n = { b with offset := 0, size := n.toNat } := by
  unfold gst_buffer_resize
  have h2 : ¬ (n < -1) := by omega
  have h3 : n ≠ -1 := by omega
  simp [h2, h3, hoff, h1]

/-- A resize never makes the visible region leave the block, provided it was
inside before. -/
theorem resize_inside (b : GstBuffer) (offset size : Int)
    (hb : b.offset + b.size ≤ gst_buffer_maxsize b) :
    (gst_buffer_resize b offset size).offset + (gst_buffer_resize b offset size).size
        ≤ gst_buffer_maxsize (gst_buffer_resize b offset size) ∧
    gst_buffer_maxsize (gst_buffer_resize b offset size) = gst_buffer_maxsize b := by
  unfold gst_buffer_resize
  simp only [gst_buffer_maxsize] at hb ⊢
  split_ifs with h1 h2 h3 h4 h5 <;>
    first
    | exact ⟨hb, rfl⟩
    | (refine ⟨?_, rfl⟩
       simp only [not_not] at h2
       simp only [ge_iff_le] at *
       omega)

/-- The successful branch of `create`, spelled out: for a positive read the
result is `GST_FLOW_OK` with the filled buffer resized to the read count. -/
theorem create_of_pos {σ : Type} (klass : KmsSCTPServerRPCClass σ)
    (self : GstSCTPServerSrcPrivate σ)
    (hpos : 0 < (klass.kms_sctp_server_rpc_get_buffer self.serverrpc self.cancellable
      MAX_BUFFER_SIZE).rret) :
    ∃ o, gst_sctp_server_src_create klass self = some o ∧
      o.ret.ret = GstFlowReturn.GST_FLOW_OK ∧
      o.ret.outbuf = some (gst_buffer_resize
        { data := mem_store (List.replicate MAX_BUFFER_SIZE 0)
            (klass.kms_sctp_server_rpc_get_buffer self.serverrpc self.cancellable
              MAX_BUFFER_SIZE).written
          offset := 0, size := MAX_BUFFER_SIZE } 0
        (klass.kms_sctp_server_rpc_get_buffer self.serverrpc self.cancellable
          MAX_BUFFER_SIZE).rret) ∧
      o.self = { self with serverrpc := (klass.kms_sctp_server_rpc_get_buffer self.serverrpc
        self.cancellable MAX_BUFFER_SIZE).rpc } ∧
      o.events = [Event.kms_sctp_server_rpc_get_buffer MAX_BUFFER_SIZE MAX_BUFFER_SIZE] := by
  have h0 : (klass.kms_sctp_server_rpc_get_buffer self.serverrpc self.cancellable
      MAX_BUFFER_SIZE).rret ≠ 0 := by omega
  have h1 : ¬ (klass.kms_sctp_server_rpc_get_buffer self.serverrpc self.cancellable
      MAX_BUFFER_SIZE).rret < 0 := by omega
  unfold gst_sctp_server_src_create
  simp only [h0, h1, if_false, filled_buffer_eq]
  simp [gst_buffer_maxsize, gst_buffer_new_and_alloc]

/-- The successful branch of `create` for a read count within the allocation:
the buffer returned is the filled block, visible from offset 0 for exactly the
read count. -/
theorem create_of_read_count {σ : Type} (klass : KmsSCTPServerRPCClass σ)
    (self : GstSCTPServerSrcPrivate σ) (n : Nat) (hn0 : 0 < n) (hn1 : n ≤ MAX_BUFFER_SIZE)
    (hret : (klass.kms_sctp_server_rpc_get_buffer self.serverrpc self.cancellable
      MAX_BUFFER_SIZE).rret = (n : Int)) :
    ∃ o, gst_sctp_server_src_create klass self = some o ∧
      o.ret = { ret := GstFlowReturn.GST_FLOW_OK
                outbuf := some
                  { data := mem_store (List.replicate MAX_BUFFER_SIZE 0)
                      (klass.kms_sctp_server_rpc_get_buffer self.serverrpc self.cancellable
                        MAX_BUFFER_SIZE).written
                    offset := 0, size := n } } := by
  have hpos : 0 < (klass.kms_sctp_server_rpc_get_buffer self.serverrpc self.cancellable
      MAX_BUFFER_SIZE).rret := by omega
  obtain ⟨o, ho, hfr, hbuf, -, -⟩ := create_of_pos klass self hpos
  obtain ⟨⟨fr, ob⟩, st, ev⟩ := o
  simp only at hfr hbuf
  rw [hret] at hbuf
  rw [resize_within _ _ rfl (by omega)
    (by simp only [gst_buffer_maxsize, mem_store_length, List.length_replicate]; omega)] at hbuf
  simp only [Int.toNat_ofNat] at hbuf
  exact ⟨_, ho, by rw [hfr, hbuf]⟩

/-- Claim C1. With `r` the result of the session's `get_buffer` call made by
`create`: `r.rret = 0` gives end-of-stream without a buffer; a negative
`r.rret` with the error `cancelled` gives flushing without a buffer; a negative
`r.rret` with any other error gives the fatal error without a buffer, after
posting the read error with the error's message; a positive `r.rret` gives OK
with a buffer. Whenever `create` returns, the result is one of these four and
a buffer is present exactly when it is OK; `create` has no result only for a
negative `r.rret` that comes without any error. -/
theorem create_flow_return {σ : Type} (klass : KmsSCTPServerRPCClass σ)
    (self : GstSCTPServerSrcPrivate σ) (r : RPCGetBufferResult σ)
    (hr : klass.kms_sctp_server_rpc_get_buffer self.serverrpc self.cancellable MAX_BUFFER_SIZE = r) :
    (r.rret = 0 → ∃ o, gst_sctp_server_src_create klass self = some o ∧
      o.ret = { ret := GstFlowReturn.GST_FLOW_EOS, outbuf := none }) ∧
    (r.rret < 0 → g_error_matches r.err G_IO_ERROR G_IO_ERROR_CANCELLED = true →
      ∃ o, gst_sctp_server_src_create klass self = some o ∧
        o.ret = { ret := GstFlowReturn.GST_FLOW_FLUSHING, outbuf := none }) ∧
    (r.rret < 0 → g_error_matches r.err G_IO_ERROR G_IO_ERROR_CANCELLED = false →
      ∀ e, r.err = some e →
        ∃ o, gst_sctp_server_src_create klass self = some o ∧
          o.ret = { ret := GstFlowReturn.GST_FLOW_ERROR, outbuf := none } ∧
          o.events = [Event.kms_sctp_server_rpc_get_buffer MAX_BUFFER_SIZE MAX_BUFFER_SIZE,
            Event.gst_element_error GstErrorDomain.RESOURCE GstResourceError.READ none
              ("Failed to read from socket: " ++ e.message)]) ∧
    (0 < r.rret → ∃ o buf, gst_sctp_server_src_create klass self = some o ∧
      o.ret = { ret := GstFlowReturn.GST_FLOW_OK, outbuf := some buf }) ∧
    (∀ o, gst_sctp_server_src_create klass self = some o →
      (o.ret.ret = GstFlowReturn.GST_FLOW_EOS ∨ o.ret.ret = GstFlowReturn.GST_FLOW_FLUSHING ∨
        o.ret.ret = GstFlowReturn.GST_FLOW_ERROR ∨ o.ret.ret = GstFlowReturn.GST_FLOW_OK) ∧
      (o.ret.outbuf ≠ none ↔ o.ret.ret = GstFlowReturn.GST_FLOW_OK)) ∧
    (gst_sctp_server_src_create klass self = none ↔ (r.rret < 0 ∧ r.err = none)) := by
  subst hr
  refine ⟨?_, ?_, ?_, ?_, ?_, ?_⟩
  · intro h0
    simp only [gst_sctp_server_src_create, h0, if_true]
    exact ⟨_, rfl, rfl⟩
  · intro hneg hm
    have h0 : (klass.kms_sctp_server_rpc_get_buffer self.serverrpc self.cancellable
      MAX_BUFFER_SIZE).rret ≠ 0 := by omega
    simp only [gst_sctp_server_src_create, h0, hneg, hm, if_true, if_false]
    exact ⟨_, rfl, rfl⟩
  · intro hneg hm e he
    have h0 : (klass.kms_sctp_server_rpc_get_buffer self.serverrpc self.cancellable
      MAX_BUFFER_SIZE).rret ≠ 0 := by omega
    rw [he] at hm
    simp only [gst_sctp_server_src_create, h0, hneg, hm, he, if_true, if_false]
    refine ⟨_, rfl, rfl, ?_⟩
    simp [gst_buffer_maxsize, gst_buffer_new_and_alloc]
  · intro hpos
    obtain ⟨o, ho, hret, hbuf, -, -⟩ := create_of_pos klass self hpos
    obtain ⟨⟨fr, ob⟩, st, ev⟩ := o
    simp only at hret hbuf
    exact ⟨_, _, ho, by rw [hret, hbuf]⟩
  · intro o ho
    unfold gst_sctp_server_src_create at ho
    simp only at ho
    split_ifs at ho with h0 hneg hm
    · cases ho
      simp
    · cases ho
      simp
    · cases he : (klass.kms_sctp_server_rpc_get_buffer self.serverrpc self.cancellable
        MAX_BUFFER_SIZE).err with
      | none => simp [he] at ho
      | some e =>
        simp only [he, Option.some.injEq] at ho
        subst ho
        simp
    · cases ho
      simp
  · unfold gst_sctp_server_src_create
    simp only
    split_ifs with h0 hneg hm
    · simp only [reduceCtorEq, false_iff, not_and]
      intro h
      omega
    · simp only [reduceCtorEq, false_iff, not_and]
      intro _ he
      rw [he] at hm
      simp [g_error_matches] at hm
    · cases he : (klass.kms_sctp_server_rpc_get_buffer self.serverrpc self.cancellable
        MAX_BUFFER_SIZE).err with
      | none => simp [hneg]
      | some e => simp
    · simp only [reduceCtorEq, false_iff, not_and]
      intro h
      omega

/-- Claim C1 on the started sample element after `unlock`: the session read
fails with the `cancelled` error and `create` returns flushing without a
buffer. -/
theorem create_flow_return_witness :
    ((sample_klass [sample_hello]).kms_sctp_server_rpc_get_buffer
        (gst_sctp_server_src_unlock (sample_started [sample_hello])).self.serverrpc
        (gst_sctp_server_src_unlock (sample_started [sample_hello])).self.cancellable
        MAX_BUFFER_SIZE).rret = -1 ∧
    ∃ o, gst_sctp_server_src_create (sample_klass [sample_hello])
        (gst_sctp_server_src_unlock (sample_started [sample_hello])).self = some o ∧
      o.ret = { ret := GstFlowReturn.GST_FLOW_FLUSHING, outbuf := none } :=
  ⟨by decide,
    (create_flow_return (sample_klass [sample_hello])
      (gst_sctp_server_src_unlock (sample_started [sample_hello])).self _ rfl).2.1
      (by decide) (by decide)⟩

/-- Claim C2. When the session's `get_buffer` call made by `create` reports `n`
bytes, `0 < n ≤ 16384`, and has stored at least those `n` bytes, `create`
returns OK with a buffer at offset 0 whose size is exactly `n` and whose bytes
are the first `n` bytes stored; the block behind it keeps the allocated
`MAX_BUFFER_SIZE` bytes. -/
theorem create_hands_exact_bytes {σ : Type} (klass : KmsSCTPServerRPCClass σ)
    (self : GstSCTPServerSrcPrivate σ) (r : RPCGetBufferResult σ)
    (hr : klass.kms_sctp_server_rpc_get_buffer self.serverrpc self.cancellable MAX_BUFFER_SIZE = r)
    (n : Nat) (hn0 : 0 < n) (hn1 : n ≤ MAX_BUFFER_SIZE) (hret : r.rret = (n : Int))
    (hw : n ≤ r.written.length) :
    ∃ o buf, gst_sctp_server_src_create klass self = some o ∧
      o.ret = { ret := GstFlowReturn.GST_FLOW_OK, outbuf := some buf } ∧
      buf.offset = 0 ∧ buf.size = n ∧
      gst_buffer_bytes buf = r.written.take n ∧
      (gst_buffer_bytes buf).length = n ∧
      gst_buffer_maxsize buf = MAX_BUFFER_SIZE := by
  subst hr
  obtain ⟨o, ho, hor⟩ := create_of_read_count klass self n hn0 hn1 hret
  refine ⟨_, _, ho, hor, rfl, rfl, ?_, ?_, ?_⟩
  · simp only [gst_buffer_bytes, List.drop_zero]
    exact mem_store_take _ _ _ (by simpa using hn1) hw
  · simp only [gst_buffer_bytes, List.drop_zero, List.length_take, mem_store_length,
      List.length_replicate]
    omega
  · simp [gst_buffer_maxsize, mem_store_length]

/-- Claim C2 on the started sample element whose peer sent the five bytes of
`hello`: `create` hands on a 5-byte buffer holding exactly those bytes. -/
theorem create_hands_exact_bytes_witness :
    ∃ o buf, gst_sctp_server_src_create (sample_klass [sample_hello])
        (sample_started [sample_hello]) = some o ∧
      o.ret = { ret := GstFlowReturn.GST_FLOW_OK, outbuf := some buf } ∧
      buf.offset = 0 ∧ buf.size = 5 ∧
      gst_buffer_bytes buf = [104, 101, 108, 108, 111] ∧
      (gst_buffer_bytes buf).length = 5 ∧
      gst_buffer_maxsize buf = MAX_BUFFER_SIZE :=
  create_hands_exact_bytes (sample_klass [sample_hello]) (sample_started [sample_hello]) _ rfl
    5 (by decide) (by decide) (by decide) (by decide)

/-- Claim C8. The maximum buffer size is 16384 in all three places: the
initialiser constructs the session with the buffer size 16384; every `create`
that returns has asked the session, as its first call, for at most 16384 bytes
into a block of 16384 bytes; every buffer `create` returns lies inside that
block, so its size is at most 16384; and for every read count `n` with
`0 < n ≤ 16384` a buffer of size `n` is returned. -/
theorem create_buffer_within_max {σ : Type} (klass : KmsSCTPServerRPCClass σ)
    (self : GstSCTPServerSrcPrivate σ) :
    MAX_BUFFER_SIZE = 16384 ∧
    (gst_sctp_server_src_init klass).2 =
      [Event.kms_sctp_server_rpc_new
          [(KmsSCTPBaseRPCProp.KMS_SCTP_BASE_RPC_RULES, KmsSCTPBaseRPCValue.KURENTO_MARSHALL_BER),
           (KmsSCTPBaseRPCProp.KMS_SCTP_BASE_RPC_BUFFER_SIZE, KmsSCTPBaseRPCValue.uint 16384)],
        Event.kms_sctp_base_rpc_set_query_function
          KmsQueryFunction.gst_sctp_server_src_remote_query] ∧
    (∀ o, gst_sctp_server_src_create klass self = some o →
      o.events.head? = some (Event.kms_sctp_server_rpc_get_buffer 16384 16384)) ∧
    (∀ o buf, gst_sctp_server_src_create klass self = some o → o.ret.outbuf = some buf →
      gst_buffer_maxsize buf = 16384 ∧ buf.offset + buf.size ≤ 16384 ∧ buf.size ≤ 16384) ∧
    (∀ n : Nat, 0 < n → n ≤ MAX_BUFFER_SIZE →
      (klass.kms_sctp_server_rpc_get_buffer self.serverrpc self.cancellable
        MAX_BUFFER_SIZE).rret = (n : Int) →
      ∃ o buf, gst_sctp_server_src_create klass self = some o ∧ o.ret.outbuf = some buf ∧
        buf.size = n ∧ buf.offset + buf.size ≤ gst_buffer_maxsize buf ∧
        gst_buffer_maxsize buf = 16384) := by
  have hmax : MAX_BUFFER_SIZE = 16384 := by decide
  refine ⟨hmax, ?_, ?_, ?_, ?_⟩
  · simp only [gst_sctp_server_src_init, hmax]
  · intro o ho
    unfold gst_sctp_server_src_create at ho
    simp only [gst_buffer_maxsize, gst_buffer_new_and_alloc, List.length_replicate] at ho
    rw [← hmax]
    split_ifs at ho with h0 hneg hm
    · cases ho
      rfl
    · cases ho
      rfl
    · cases he : (klass.kms_sctp_server_rpc_get_buffer self.serverrpc self.cancellable
        MAX_BUFFER_SIZE).err with
      | none => simp [he] at ho
      | some e =>
        simp only [he, Option.some.injEq] at ho
        subst ho
        rfl
    · cases ho
      rfl
  · intro o buf ho hb
    by_cases hpos : 0 < (klass.kms_sctp_server_rpc_get_buffer self.serverrpc self.cancellable
        MAX_BUFFER_SIZE).rret
    · obtain ⟨o1, ho1, -, hbuf, -, -⟩ := create_of_pos klass self hpos
      rw [ho] at ho1
      cases ho1
      rw [hb] at hbuf
      cases hbuf
      have hin := resize_inside
        { data := mem_store (List.replicate MAX_BUFFER_SIZE 0)
            (klass.kms_sctp_server_rpc_get_buffer self.serverrpc self.cancellable
              MAX_BUFFER_SIZE).written
          offset := 0, size := MAX_BUFFER_SIZE } 0
        (klass.kms_sctp_server_rpc_get_buffer self.serverrpc self.cancellable
          MAX_BUFFER_SIZE).rret
        (by simp [gst_buffer_maxsize, mem_store_length])
      have hlen : gst_buffer_maxsize
          { data := mem_store (List.replicate MAX_BUFFER_SIZE 0)
              (klass.kms_sctp_server_rpc_get_buffer self.serverrpc self.cancellable
                MAX_BUFFER_SIZE).written
            offset := 0, size := MAX_BUFFER_SIZE } = 16384 := by
        simp only [gst_buffer_maxsize, mem_store_length, List.length_replicate]
        exact hmax
      rw [hlen] at hin
      obtain ⟨hin1, hin2⟩ := hin
      rw [hin2] at hin1
      exact ⟨hin2, hin1, by omega⟩
    · exfalso
      unfold gst_sctp_server_src_create at ho
      simp only at ho
      split_ifs at ho with h0 hneg hm
      · cases ho
        simp at hb
      · cases ho
        simp at hb
      · cases he : (klass.kms_sctp_server_rpc_get_buffer self.serverrpc self.cancellable
          MAX_BUFFER_SIZE).err with
        | none => simp [he] at ho
        | some e =>
          simp only [he, Option.some.injEq] at ho
          subst ho
          simp at hb
      · omega
  · intro n hn0 hn1 hret
    obtain ⟨o, ho, hor⟩ := create_of_read_count klass self n hn0 hn1 hret
    refine ⟨o, _, ho, by rw [hor], rfl, ?_, ?_⟩
    · simp only [gst_buffer_maxsize, mem_store_length, List.length_replicate]
      omega
    · simp only [gst_buffer_maxsize, mem_store_length, List.length_replicate]
      exact hmax

/-! ## Properties: `start` -/

/-- Claim C6. With `r` the result of the session's `start` on the stored host,
port and token: when it succeeds `start` returns `TRUE` after that one call;
when it fails with error `e`, `start` returns `FALSE` after that one call and
one element error whose text is `Error: ` followed by the message of `e`. In
every case in which `start` returns, it returns `TRUE` exactly when the
session's call succeeded, the session is the one that call left, and the
session's `start` was called exactly once, with the stored host, port and
token. `start` has no result only when the session fails without an error. -/
theorem start_calls_session_once {σ : Type} (klass : KmsSCTPServerRPCClass σ)
    (self : GstSCTPServerSrcPrivate σ) (r : RPCStartResult σ)
    (hr : klass.kms_sctp_server_rpc_start self.serverrpc self.host self.server_port
      self.cancellable = r) :
    (r.ok = true → gst_sctp_server_src_start klass self = some
      { ret := true, self := { self with serverrpc := r.rpc }
        events := [Event.kms_sctp_server_rpc_start self.host self.server_port self.cancellable] }) ∧
    (r.ok = false → ∀ e, r.err = some e → gst_sctp_server_src_start klass self = some
      { ret := false, self := { self with serverrpc := r.rpc }
        events := [Event.kms_sctp_server_rpc_start self.host self.server_port self.cancellable,
          Event.gst_element_error GstErrorDomain.RESOURCE GstResourceError.OPEN_READ none
            ("Error: " ++ e.message)] }) ∧
    (∀ o, gst_sctp_server_src_start klass self = some o →
      (o.ret = true ↔ r.ok = true) ∧
      o.self = { self with serverrpc := r.rpc } ∧
      o.events.filter Event.is_rpc_start =
        [Event.kms_sctp_server_rpc_start self.host self.server_port self.cancellable]) ∧
    (gst_sctp_server_src_start klass self = none ↔ (r.ok = false ∧ r.err = none)) := by
  subst hr
  refine ⟨?_, ?_, ?_, ?_⟩
  · intro hok
    simp [gst_sctp_server_src_start, hok]
  · intro hok e he
    simp [gst_sctp_server_src_start, hok, he]
  · intro o ho
    unfold gst_sctp_server_src_start at ho
    simp only at ho
    split_ifs at ho with hok
    · cases ho
      simp [hok, Event.is_rpc_start]
    · cases he : (klass.kms_sctp_server_rpc_start self.serverrpc self.host self.server_port
        self.cancellable).err with
      | none => simp [he] at ho
      | some e =>
        simp only [he, Option.some.injEq] at ho
        subst ho
        simp [hok, Event.is_rpc_start]
  · unfold gst_sctp_server_src_start
    simp only
    split_ifs with hok
    · simp [hok]
    · cases he : (klass.kms_sctp_server_rpc_start self.serverrpc self.host self.server_port
        self.cancellable).err with
      | none => simpa using hok
      | some e => simp

/-- Claim C6 on the sample element after `unlock`: the session's `start` fails
with `Operation was cancelled`, and `start` returns `FALSE` after one session
call and the element error `Error: Operation was cancelled`. -/
theorem start_calls_session_once_witness :
    gst_sctp_server_src_start (sample_klass [])
        (gst_sctp_server_src_unlock (sample_element [])).self = some
      { ret := false
        self := (gst_sctp_server_src_unlock (sample_element [])).self
        events := [Event.kms_sctp_server_rpc_start (some "localhost") 0 { cancelled := true },
          Event.gst_element_error GstErrorDomain.RESOURCE GstResourceError.OPEN_READ none
            "Error: Operation was cancelled"] } :=
  (start_calls_session_once (sample_klass []) (gst_sctp_server_src_unlock (sample_element [])).self
    _ rfl).2.1 (by decide) sample_cancelled (by decide)

/-- Claim C3, the code at the failing input: on the sample element, built with
the port property 0, `start` succeeds and the session is bound to the ephemeral
port 49152, yet `current-port` reads 0 afterwards, as it did before. -/
theorem start_leaves_current_port_zero :
    gst_sctp_server_src_get_property (sample_element []) PROP_PORT (GValue.int 0)
      = GValue.int 0 ∧
    ∃ o, gst_sctp_server_src_start (sample_klass []) (sample_element []) = some o ∧
      o.ret = true ∧
      o.self.serverrpc.bound_port = 49152 ∧
      gst_sctp_server_src_get_property o.self PROP_CURRENT_PORT (GValue.int 0) = GValue.int 0 := by
  refine ⟨by decide, _, rfl, ?_, ?_, ?_⟩ <;> decide

/-! ## Properties: the remote query handler -/

/-- Claim C10. The initialiser registers `gst_sctp_server_src_remote_query`
with the session; that handler sends a CAPS query, and no other, to the peer of
the source pad and returns the peer's answer; a query of any other type causes
no call at all and comes back unchanged. -/
theorem remote_query_forwards_caps_only {σ : Type} (klass : KmsSCTPServerRPCClass σ)
    (peer : GstQuery → GstQuery) (query : GstQuery) :
    Event.kms_sctp_base_rpc_set_query_function KmsQueryFunction.gst_sctp_server_src_remote_query
      ∈ (gst_sctp_server_src_init klass).2 ∧
    (∀ f, Event.kms_sctp_base_rpc_set_query_function f ∈ (gst_sctp_server_src_init klass).2 →
      kms_query_function_invoke f peer query = gst_sctp_server_src_remote_query peer query) ∧
    (GST_QUERY_TYPE query = GstQueryType.GST_QUERY_CAPS →
      gst_sctp_server_src_remote_query peer query
        = (peer query, [Event.gst_pad_peer_query query])) ∧
    (GST_QUERY_TYPE query ≠ GstQueryType.GST_QUERY_CAPS →
      gst_sctp_server_src_remote_query peer query = (query, [])) ∧
    (((gst_sctp_server_src_remote_query peer query).2.any Event.is_peer_query = true) ↔
      GST_QUERY_TYPE query = GstQueryType.GST_QUERY_CAPS) := by
  refine ⟨by simp [gst_sctp_server_src_init], ?_, ?_, ?_, ?_⟩
  · intro f _
    cases f
    rfl
  · intro h
    simp [gst_sctp_server_src_remote_query, h]
  · intro h
    unfold gst_sctp_server_src_remote_query
    split
    · rename_i h1
      exact absurd h1 h
    · rfl
  · unfold gst_sctp_server_src_remote_query
    split
    · rename_i h1
      simp [h1, Event.is_peer_query]
    · rename_i h1
      simpa using h1

/-! ## Properties: `stop` and later calls -/

/-- Under the `GError` convention `start` always returns. -/
theorem start_returns {σ : Type} (klass : KmsSCTPServerRPCClass σ) (hconv : GErrorConvention klass)
    (self : GstSCTPServerSrcPrivate σ) :
    ∃ o, gst_sctp_server_src_start klass self = some o ∧
      o.self.cancellable = self.cancellable ∧
      (∀ e ∈ o.events, e.is_rpc_start = true →
        e = Event.kms_sctp_server_rpc_start self.host self.server_port self.cancellable) ∧
      o.events.head? =
        some (Event.kms_sctp_server_rpc_start self.host self.server_port self.cancellable) := by
  unfold gst_sctp_server_src_start
  simp only
  split_ifs with hok
  · exact ⟨_, rfl, rfl, by simp, rfl⟩
  · have hne := hconv.1 self.serverrpc self.host self.server_port self.cancellable
      (by simpa using hok)
    cases he : (klass.kms_sctp_server_rpc_start self.serverrpc self.host self.server_port
        self.cancellable).err with
    | none => exact absurd he hne
    | some e => exact ⟨_, rfl, rfl, by simp [Event.is_rpc_start], rfl⟩

/-- Under the `GError` convention `create` always returns; it leaves the token
alone and never calls the session's `start`. -/
theorem create_returns {σ : Type} (klass : KmsSCTPServerRPCClass σ) (hconv : GErrorConvention klass)
    (self : GstSCTPServerSrcPrivate σ) :
    ∃ o, gst_sctp_server_src_create klass self = some o ∧
      o.self.cancellable = self.cancellable ∧
      (∀ e ∈ o.events, e.is_rpc_start = false) := by
  unfold gst_sctp_server_src_create
  simp only
  split_ifs with h0 hneg hm
  · exact ⟨_, rfl, rfl, by simp [Event.is_rpc_start]⟩
  · exact ⟨_, rfl, rfl, by simp [Event.is_rpc_start]⟩
  · have hne := hconv.2 self.serverrpc self.cancellable MAX_BUFFER_SIZE hneg
    cases he : (klass.kms_sctp_server_rpc_get_buffer self.serverrpc self.cancellable
        MAX_BUFFER_SIZE).err with
    | none => exact absurd he hne
    | some e => exact ⟨_, rfl, rfl, by simp [Event.is_rpc_start]⟩
  · exact ⟨_, rfl, rfl, by simp [Event.is_rpc_start]⟩

/-- One framework call other than `unlock_stop`, on a state whose token is
signalled: it returns, the token is still signalled, and every session `start`
it made was handed a signalled token. -/
theorem apply_keeps_token_signalled {σ : Type} (klass : KmsSCTPServerRPCClass σ)
    (hconv : GErrorConvention klass) (c : Call) (hc : c ≠ Call.unlock_stop)
    (self : GstSCTPServerSrcPrivate σ) (htok : self.cancellable.cancelled = true) :
    ∃ s1 ev, Call.apply klass c self = some (s1, ev) ∧ s1.cancellable.cancelled = true ∧
      (∀ host port tok, Event.kms_sctp_server_rpc_start host port tok ∈ ev →
        tok.cancelled = true) := by
  cases c with
  | start =>
    obtain ⟨o, ho, htk, hev, -⟩ := start_returns klass hconv self
    refine ⟨o.self, o.events, by simp [Call.apply, ho], by rw [htk]; exact htok, ?_⟩
    intro host port tok hmem
    have h := hev _ hmem rfl
    simp only [Event.kms_sctp_server_rpc_start.injEq] at h
    rw [h.2.2]
    exact htok
  | stop =>
    refine ⟨_, _, rfl, rfl, ?_⟩
    intro host port tok hmem
    simp [gst_sctp_server_src_stop] at hmem
  | unlock =>
    refine ⟨_, _, rfl, rfl, ?_⟩
    intro host port tok hmem
    simp [gst_sctp_server_src_unlock] at hmem
  | unlock_stop => exact absurd rfl hc
  | create =>
    obtain ⟨o, ho, htk, hev⟩ := create_returns klass hconv self
    refine ⟨o.self, o.events, by simp [Call.apply, ho], by rw [htk]; exact htok, ?_⟩
    intro host port tok hmem
    have h := hev _ hmem
    simp [Event.is_rpc_start] at h

/-- A sequence of framework calls without `unlock_stop`, on a state whose token
is signalled: it returns, the token is still signalled at the end, and every
session `start` made on the way was handed a signalled token. -/
theorem run_keeps_token_signalled {σ : Type} (klass : KmsSCTPServerRPCClass σ)
    (hconv : GErrorConvention klass) (calls : List Call) (hcalls : Call.unlock_stop ∉ calls)
    (self : GstSCTPServerSrcPrivate σ) (htok : self.cancellable.cancelled = true) :
    ∃ s1 ev, run_calls klass calls self = some (s1, ev) ∧ s1.cancellable.cancelled = true ∧
      (∀ host port tok, Event.kms_sctp_server_rpc_start host port tok ∈ ev →
        tok.cancelled = true) := by
  induction calls generalizing self with
  | nil => exact ⟨self, [], rfl, htok, by simp⟩
  | cons c cs ih =>
    have hc : c ≠ Call.unlock_stop := by
      intro h
      exact hcalls (by simp [h])
    have hcs : Call.unlock_stop ∉ cs := by
      intro h
      exact hcalls (by simp [h])
    obtain ⟨s1, ev1, h1, ht1, he1⟩ := apply_keeps_token_signalled klass hconv c hc self htok
    obtain ⟨s2, ev2, h2, ht2, he2⟩ := ih hcs s1 ht1
    refine ⟨s2, ev1 ++ ev2, by simp [run_calls, h1, h2], ht2, ?_⟩
    intro host port tok hmem
    rcases List.mem_append.mp hmem with h | h
    · exact he1 host port tok h
    · exact he2 host port tok h

/-- Claim C9. For a session that follows the `GError` convention and every
element state: `stop` returns `TRUE`, cancels the token and then stops the
session (which sees the token signalled), and leaves the token signalled.
After it, every sequence of `start`, `stop`, `unlock` and `create` calls runs
to an end with the token still signalled, every session `start` made on the way
was handed a signalled token, a further `start` hands the signalled token to
the session as its first call, and only `unlock_stop` clears the token. -/
theorem stop_leaves_token_signalled {σ : Type} (klass : KmsSCTPServerRPCClass σ)
    (hconv : GErrorConvention klass) (self : GstSCTPServerSrcPrivate σ)
    (calls : List Call) (hcalls : Call.unlock_stop ∉ calls) :
    (gst_sctp_server_src_stop klass self).ret = true ∧
    (gst_sctp_server_src_stop klass self).events
      = [Event.g_cancellable_cancel, Event.kms_sctp_server_rpc_stop] ∧
    (gst_sctp_server_src_stop klass self).self.serverrpc
      = klass.kms_sctp_server_rpc_stop self.serverrpc { cancelled := true } ∧
    (gst_sctp_server_src_stop klass self).self.cancellable.cancelled = true ∧
    ∃ s1 ev, run_calls klass calls (gst_sctp_server_src_stop klass self).self = some (s1, ev) ∧
      s1.cancellable.cancelled = true ∧
      (∀ host port tok, Event.kms_sctp_server_rpc_start host port tok ∈ ev →
        tok.cancelled = true) ∧
      (∃ o, gst_sctp_server_src_start klass s1 = some o ∧
        o.events.head? = some (Event.kms_sctp_server_rpc_start s1.host s1.server_port
          { cancelled := true })) ∧
      (gst_sctp_server_src_unlock_stop s1).self.cancellable.cancelled = false := by
  refine ⟨rfl, rfl, rfl, rfl, ?_⟩
  obtain ⟨s1, ev, hrun, htok, hev⟩ := run_keeps_token_signalled klass hconv calls hcalls
    (gst_sctp_server_src_stop klass self).self rfl
  refine ⟨s1, ev, hrun, htok, hev, ?_, rfl⟩
  obtain ⟨o, ho, -, -, hhead⟩ := start_returns klass hconv s1
  refine ⟨o, ho, ?_⟩
  rw [hhead]
  have hc : s1.cancellable = { cancelled := true } := by
    cases hcc : s1.cancellable with
    | mk b =>
      rw [hcc] at htok
      simp only at htok
      rw [htok]
  rw [hc]

/-- The sample session follows the `GError` convention. -/
theorem sample_klass_convention (wire : List (List Nat)) : GErrorConvention (sample_klass wire) := by
  constructor
  · intro rpc host port tok
    simp only [sample_klass]
    by_cases h1 : tok.cancelled = true
    · simp [h1]
    · cases host with
      | none => simp [h1]
      | some h =>
        by_cases h2 : h = ""
        · simp [h1, h2]
        · simp [h1, h2]
  · intro rpc tok maxlen
    simp only [sample_klass]
    by_cases h1 : tok.cancelled = true
    · simp [h1]
    · by_cases h2 : rpc.connected = false
      · simp [h1, h2]
      · cases h3 : rpc.handoff with
        | nil => simp [h1, h2]
        | cons p rest =>
          have h4 : tok.cancelled = false := by simpa using h1
          have h5 : rpc.connected = true := by simpa using h2
          simp only [h4, h5, Bool.false_eq_true, if_false, reduceCtorEq]
          intro h
          omega

/-- Claim C9 on the started sample element: after `stop`, the calls `start`,
`create`, `unlock`, `stop` run to an end with the token signalled, and the
session's `start` was handed the signalled token. -/
theorem stop_leaves_token_signalled_witness :
    Call.unlock_stop ∉ [Call.start, Call.create, Call.unlock, Call.stop] ∧
    ∃ s1 ev, run_calls (sample_klass [sample_hello]) [Call.start, Call.create, Call.unlock, Call.stop]
        (gst_sctp_server_src_stop (sample_klass [sample_hello])
          (sample_started [sample_hello])).self = some (s1, ev) ∧
      s1.cancellable.cancelled = true ∧
      (∀ host port tok, Event.kms_sctp_server_rpc_start host port tok ∈ ev →
        tok.cancelled = true) :=
  ⟨by decide,
    let h := (stop_leaves_token_signalled (sample_klass [sample_hello])
      (sample_klass_convention [sample_hello]) (sample_started [sample_hello])
      [Call.start, Call.create, Call.unlock, Call.stop] (by decide)).2.2.2.2
    ⟨h.choose, h.choose_spec.choose, h.choose_spec.choose_spec.1, h.choose_spec.choose_spec.2.1,
      h.choose_spec.choose_spec.2.2.1⟩⟩

end Kurento
